import Mathlib

/-!
Shallow embedding of the Telegram bot in `src/main.py` (a message-relay bot:
five handlers over a MongoDB-backed store), together with proofs of the
behavioural claims about it.

The document store `db` (collections `users`, `chat_history`, `files`,
`web_search`) is modelled as a `Store` of four lists; `insert_one` appends,
`find_one` is `List.find?`, and `update_one` updates the first matching
element.  Each handler is a pure function from the pre-store and the inbound
event to the post-store plus the list of replies actually delivered.

Exceptions: the Python code wraps parts of `chat_handler`, `file_handler` and
`web_search` in try/except.  Every fallible external call that such a block
guards (the Gemini call, an `insert_one`, the success-path `reply_text`) gets
an explicit outcome in an environment record passed to the handler, and the
handler's branches mirror the try/except control flow: a failed call skips the
rest of the block and runs the except arm (log + apology).  The apology
`reply_text` in an except arm is modelled as delivered.  `file_handler`'s
download happens before its try block, so its failure is modelled as an
uncaught exception (`raised := true`).  `start` and `contact_handler` contain
no try/except, and no claim concerns their calls failing, so they are
modelled on their non-raising executions.
-/

/-- A row of the `users` collection.  `start` inserts documents without a
`phone_number` field; `contact_handler` later `$set`s it, so the field is an
`Option` that is `none` while absent. -/
structure UserRow where
  first_name : String
  username : Option String
  chat_id : Nat
  phone_number : Option String
deriving DecidableEq

/-- A row of the `chat_history` collection. -/
structure ChatRec where
  chat_id : Nat
  user_input : String
  bot_response : String
  timestamp : Nat
deriving DecidableEq

/-- A row of the `files` collection.  `file_name` is an `Option`: the Python
code stores `file.file_name` verbatim, which for a document attachment may be
`None`. -/
structure FileRec where
  file_name : Option String
  chat_id : Nat
  description : String
  timestamp : Nat
deriving DecidableEq

/-- A row of the `web_search` collection. -/
structure SearchRec where
  chat_id : Nat
  query : String
  results : String
  timestamp : Nat
deriving DecidableEq

/-- The four logical collections of the MongoDB database `telegram_bot`. -/
structure Store where
  users : List UserRow
  chat_history : List ChatRec
  files : List FileRec
  web_search : List SearchRec
deriving DecidableEq

/-- The store before any handler has run. -/
def emptyStore : Store := ⟨[], [], [], []⟩

/-- The identity attached to an inbound event (`update.effective_user`). -/
structure TgUser where
  id : Nat
  first_name : String
  username : Option String
deriving DecidableEq

/-- A contact-share event: `update.message.contact` carries the contact's
platform `user_id` and `phone_number`; the sender's own chat id is carried
separately by the update and is never read by the handler. -/
structure ContactEvent where
  sender_chat_id : Nat
  user_id : Nat
  phone_number : String
deriving DecidableEq

/-- Result of a handler that cannot leak an exception: post-store, the list
of replies delivered, and whether `logging.error` ran. -/
structure HRes where
  store : Store
  sent : List String
  logged : Bool
deriving DecidableEq

def welcomeText : String :=
  "Welcome! Please share your phone number to complete registration."

/-- The `/start` handler (`start` in `src/main.py`): insert a `users` row for
`user.id` unless one exists (`find_one` on `chat_id`), then send the welcome
prompt (whose keyboard button is not modelled). -/
def start (st : Store) (user : TgUser) : Store × List String :=
  if (st.users.find? (fun u => u.chat_id == user.id)).isSome then
    (st, [welcomeText])
  else
    ({ st with users := st.users ++
        [{ first_name := user.first_name, username := user.username,
           chat_id := user.id, phone_number := none }] },
     [welcomeText])

def thankYouText : String := "Thank you! Your phone number has been saved."

/-- Mongo `update_one` on the `users` collection: `$set` the phone number on
the first row whose `chat_id` equals `key`; update nothing when none matches. -/
def updateOne (l : List UserRow) (key : Nat) (phone : String) : List UserRow :=
  match l with
  | [] => []
  | u :: rest =>
    if u.chat_id == key then { u with phone_number := some phone } :: rest
    else u :: updateOne rest key phone

/-- The contact-share handler (`contact_handler` in `src/main.py`):
`update_one` keyed on the contact's `user_id`, then the thank-you reply. -/
def contact_handler (st : Store) (ev : ContactEvent) : Store × List String :=
  ({ st with users := updateOne st.users ev.user_id ev.phone_number },
   [thankYouText])

def chatApology : String := "Sorry, I couldn't process that right now."

/-- Outcomes of the external calls inside `chat_handler`'s try block:
`gemini` is the Gemini call's result (`none` when it raises), `insertOk` and
`sendOk` whether the `insert_one` and the success `reply_text` return
normally.  `now` is `datetime.utcnow()`. -/
structure ChatEnv where
  gemini : Option String
  insertOk : Bool
  sendOk : Bool
  now : Nat
deriving DecidableEq

/-- The text-message handler (`chat_handler` in `src/main.py`): call Gemini
on the raw text; on success insert a full `chat_history` document and reply
with the response; any exception inside the try block falls to the except
arm, which logs and sends the fixed apology. -/
def chat_handler (st : Store) (chatId : Nat) (text : String) (env : ChatEnv) :
    HRes :=
  match env.gemini with
  | none => ⟨st, [chatApology], true⟩
  | some resp =>
    if env.insertOk then
      let st' := { st with chat_history :=
        st.chat_history ++ [⟨chatId, text, resp, env.now⟩] }
      if env.sendOk then ⟨st', [resp], false⟩
      else ⟨st', [chatApology], true⟩
    else ⟨st, [chatApology], true⟩

/-- A file/photo attachment.  A Telegram `Document` object always exposes a
`file_name` attribute whose value is optional (it may be `None`); a
`PhotoSize` object has no `file_name` attribute at all, which is what the
code's `hasattr(file, 'file_name')` test distinguishes. -/
inductive Attachment where
  | document (file_name : Option String)
  | photo
deriving DecidableEq

/-- Python's rendering of an optional string inside an f-string: `None`
prints as the four-character string `"None"`. -/
def pyStr : Option String → String
  | none => "None"
  | some s => s

/-- `file_name = file.file_name if hasattr(file, 'file_name') else
"photo.jpg"`: a document yields its `file_name` attribute verbatim (possibly
`none`), a photo yields the fixed default. -/
def displayFileName : Attachment → Option String
  | .document fn => fn
  | .photo => some "photo.jpg"

def fileApology : String := "Sorry, I couldn't analyze the file."

/-- Outcomes of `file_handler`'s external calls: the download (which the code
performs before its try block), the `insert_one`, and the success
`reply_text`. -/
structure FileEnv where
  downloadOk : Bool
  insertOk : Bool
  sendOk : Bool
  now : Nat
deriving DecidableEq

/-- Result of `file_handler`: as `HRes`, plus `raised`, true when an
exception escapes the handler (the download is not guarded by the try). -/
structure FileRes where
  store : Store
  sent : List String
  logged : Bool
  raised : Bool
deriving DecidableEq

/-- The file/photo handler (`file_handler` in `src/main.py`): compute the
display name, download (outside the try — a failure there propagates), then
inside the try build the templated description, insert a `files` document and
reply; exceptions in the try fall to the except arm (log + apology). -/
def file_handler (st : Store) (chatId : Nat) (att : Attachment)
    (env : FileEnv) : FileRes :=
  let file_name := displayFileName att
  if env.downloadOk then
    let gemini_analysis :=
      "Analysis of " ++ pyStr file_name ++ " completed by Gemini AI."
    if env.insertOk then
      let st' := { st with files :=
        st.files ++ [⟨file_name, chatId, gemini_analysis, env.now⟩] }
      if env.sendOk then ⟨st', ["File analyzed: " ++ gemini_analysis], false, false⟩
      else ⟨st', [fileApology], true, false⟩
    else ⟨st, [fileApology], true, false⟩
  else ⟨st, [], false, true⟩

def usageText : String := "Please provide a query after /websearch."

def searchApology : String := "Sorry, I couldn't perform the web search."

/-- Outcomes of the external calls inside `web_search`'s try block. -/
structure SearchEnv where
  insertOk : Bool
  sendOk : Bool
  now : Nat
deriving DecidableEq

/-- The `/websearch` handler (`web_search` in `src/main.py`): join
`context.args` with single spaces; if the joined string is empty (Python
falsiness) reply with the usage prompt and stop; otherwise build the
templated result string, insert a `web_search` document, and reply with it;
exceptions in the try fall to the except arm (log + apology). -/
def web_search (st : Store) (chatId : Nat) (args : List String)
    (env : SearchEnv) : HRes :=
  let query := String.intercalate " " args
  if query = "" then ⟨st, [usageText], false⟩
  else
    let search_results := "Results for '" ++ query ++ "' retrieved by AI."
    if env.insertOk then
      let st' := { st with web_search :=
        st.web_search ++ [⟨chatId, query, search_results, env.now⟩] }
      if env.sendOk then ⟨st', [search_results], false⟩
      else ⟨st', [searchApology], true⟩
    else ⟨st, [searchApology], true⟩

/-- The chat ids of the rows of a `users` collection, in order. -/
def chatIds (l : List UserRow) : List Nat := l.map (·.chat_id)

/-! ### Helper lemmas about the embedded operations -/

theorem start_eq_of_found (st : Store) (user : TgUser)
    (h : (st.users.find? (fun u => u.chat_id == user.id)).isSome = true) :
    start st user = (st, [welcomeText]) := by
  simp [start, h]

theorem start_eq_of_new (st : Store) (user : TgUser)
    (h : st.users.find? (fun u => u.chat_id == user.id) = none) :
    start st user =
      ({ st with users := st.users ++
          [{ first_name := user.first_name, username := user.username,
             chat_id := user.id, phone_number := none }] },
       [welcomeText]) := by
  simp [start, h]

theorem updateOne_length (l : List UserRow) (k : Nat) (p : String) :
    (updateOne l k p).length = l.length := by
  induction l with
  | nil => rfl
  | cons u rest ih =>
    cases h : (u.chat_id == k) with
    | true => simp [updateOne, h]
    | false => simp [updateOne, h, ih]

theorem updateOne_chatIds (l : List UserRow) (k : Nat) (p : String) :
    chatIds (updateOne l k p) = chatIds l := by
  induction l with
  | nil => rfl
  | cons u rest ih =>
    cases h : (u.chat_id == k) with
    | true => simp [updateOne, h, chatIds]
    | false =>
      simp only [updateOne, h, if_false, Bool.false_eq_true, chatIds, List.map_cons]
      simpa [chatIds] using ih

theorem updateOne_eq_of_no_match (l : List UserRow) (k : Nat) (p : String)
    (h : ∀ u ∈ l, u.chat_id ≠ k) : updateOne l k p = l := by
  induction l with
  | nil => rfl
  | cons v rest ih =>
    have hv : (v.chat_id == k) = false := by
      simpa using h v (List.mem_cons_self v rest)
    simp [updateOne, hv, ih (fun u hu => h u (List.mem_cons_of_mem v hu))]

theorem updateOne_getElem_ne (l : List UserRow) (k : Nat) (p : String)
    (i : Nat) (u : UserRow) (hu : l[i]? = some u) (hne : u.chat_id ≠ k) :
    (updateOne l k p)[i]? = some u := by
  induction l generalizing i with
  | nil => simp at hu
  | cons v rest ih =>
    cases hv : (v.chat_id == k) with
    | true =>
      cases i with
      | zero =>
        rw [List.getElem?_cons_zero] at hu
        injection hu with huv
        have hvk : v.chat_id = k := by simpa using hv
        rw [huv] at hvk
        exact absurd hvk hne
      | succ n =>
        rw [List.getElem?_cons_succ] at hu
        simp only [updateOne, hv, if_true]
        rw [List.getElem?_cons_succ]
        exact hu
    | false =>
      cases i with
      | zero =>
        rw [List.getElem?_cons_zero] at hu
        simp only [updateOne, hv, Bool.false_eq_true, if_false]
        rw [List.getElem?_cons_zero]
        exact hu
      | succ n =>
        rw [List.getElem?_cons_succ] at hu
        simp only [updateOne, hv, Bool.false_eq_true, if_false]
        rw [List.getElem?_cons_succ]
        exact ih n hu

theorem updateOne_getElem_match (l : List UserRow) (k : Nat) (p : String)
    (hnd : (chatIds l).Nodup) (i : Nat) (u : UserRow)
    (hu : l[i]? = some u) (hk : u.chat_id = k) :
    (updateOne l k p)[i]? = some { u with phone_number := some p } := by
  induction l generalizing i with
  | nil => simp at hu
  | cons v rest ih =>
    have hnd' : v.chat_id ∉ chatIds rest ∧ (chatIds rest).Nodup := by
      simpa [chatIds, List.nodup_cons] using hnd
    cases hv : (v.chat_id == k) with
    | true =>
      have hvk : v.chat_id = k := by simpa using hv
      cases i with
      | zero =>
        rw [List.getElem?_cons_zero] at hu
        simp only [updateOne, hv, if_true]
        rw [List.getElem?_cons_zero]
        cases hu
        rfl
      | succ n =>
        exfalso
        rw [List.getElem?_cons_succ] at hu
        have humem : u ∈ rest := by
          rcases List.getElem?_eq_some.mp hu with ⟨hlt, hget⟩
          exact hget ▸ List.getElem_mem hlt
        exact hnd'.1 (by
          have : u.chat_id ∈ chatIds rest :=
            List.mem_map.mpr ⟨u, humem, rfl⟩
          rwa [hk, ← hvk] at this)
    | false =>
      cases i with
      | zero =>
        rw [List.getElem?_cons_zero] at hu
        injection hu with huv
        rw [← huv] at hk
        exact absurd hk (by simpa using hv)
      | succ n =>
        rw [List.getElem?_cons_succ] at hu
        simp only [updateOne, hv, Bool.false_eq_true, if_false]
        rw [List.getElem?_cons_succ]
        exact ih hnd'.2 n hu

theorem chat_handler_users_eq (st : Store) (cid : Nat) (text : String)
    (env : ChatEnv) : (chat_handler st cid text env).store.users = st.users := by
  rcases env with ⟨g, i, s, n⟩
  cases g <;> cases i <;> cases s <;> rfl

theorem file_handler_users_eq (st : Store) (cid : Nat) (att : Attachment)
    (env : FileEnv) : (file_handler st cid att env).store.users = st.users := by
  rcases env with ⟨d, i, s, n⟩
  cases d <;> cases i <;> cases s <;> rfl

theorem web_search_users_eq (st : Store) (cid : Nat) (args : List String)
    (env : SearchEnv) : (web_search st cid args env).store.users = st.users := by
  rcases env with ⟨i, s, n⟩
  cases i <;> cases s <;>
    (simp only [web_search]; split <;> rfl)

theorem intercalate_go_length (l : List String) (acc : String) :
    acc.length ≤ (String.intercalate.go acc " " l).length := by
  induction l generalizing acc with
  | nil => simp [String.intercalate.go]
  | cons a as ih =>
    simp only [String.intercalate.go]
    calc acc.length ≤ (acc ++ " " ++ a).length := by
          rw [String.length_append, String.length_append]
          omega
      _ ≤ _ := ih _

/-- Python's `" ".join` of two or more strings starting with two empties is a
non-empty string (it contains at least the separator), so the handler's
`if not query` guard does not fire on it. -/
theorem intercalate_cons_cons_ne (rest : List String) :
    String.intercalate " " ("" :: "" :: rest) ≠ "" := by
  intro hc
  have h1 : String.intercalate " " ("" :: "" :: rest)
      = String.intercalate.go ("" ++ " " ++ "") " " rest := by
    simp [String.intercalate, String.intercalate.go]
  have h2 := intercalate_go_length rest ("" ++ " " ++ "")
  rw [h1] at hc
  rw [hc] at h2
  exact absurd h2 (by decide)

theorem intercalate_replicate_empty_ne (n : Nat) :
    String.intercalate " " (List.replicate (n + 2) "") ≠ "" := by
  have h : List.replicate (n + 2) "" = "" :: "" :: List.replicate n "" := by
    simp [List.replicate]
  rw [h]
  exact intercalate_cons_cons_ne (List.replicate n "")

/-! ### The claims -/

/-- C2.  For every `chat_id` not previously present in the `users`
collection, one invocation of `start` inserts exactly one `User` row — whose
`phone_number` is unset — and a further invocation for the same `chat_id`
(any user value with the same id) inserts no additional row. -/
theorem start_registers_once (st : Store) (user user' : TgUser)
    (hnew : st.users.find? (fun u => u.chat_id == user.id) = none)
    (hsame : user'.id = user.id) :
    (start st user).1.users
      = st.users ++ [{ first_name := user.first_name, username := user.username,
                       chat_id := user.id, phone_number := none }]
    ∧ (start (start st user).1 user').1.users = (start st user).1.users := by
  have h1 := start_eq_of_new st user hnew
  refine ⟨by rw [h1], ?_⟩
  have hfind : ((start st user).1.users.find?
      (fun u => u.chat_id == user'.id)).isSome = true := by
    rw [h1, hsame]
    simp only [List.find?_append, hnew, Option.none_or]
    simp [List.find?]
  rw [start_eq_of_found (start st user).1 user' hfind]

/-- Witness for C2 at a concrete fresh user. -/
theorem start_registers_once_witness :
    (start emptyStore ⟨1, "A", some "a"⟩).1.users
      = [{ first_name := "A", username := some "a", chat_id := 1,
           phone_number := none }]
    ∧ (start (start emptyStore ⟨1, "A", some "a"⟩).1 ⟨1, "A", some "a"⟩).1.users
      = (start emptyStore ⟨1, "A", some "a"⟩).1.users := by
  have h := start_registers_once emptyStore ⟨1, "A", some "a"⟩ ⟨1, "A", some "a"⟩
    (by rfl) rfl
  exact ⟨by simpa using h.1, h.2⟩

/-- C3.  "At most one `User` row per `chat_id`" — stated as `Nodup` of the
list of chat ids — holds of the empty store and is preserved by every
handler: `start` inserts only when `find_one` returns nothing,
`contact_handler` never changes a row's `chat_id`, and the chat, file and
web-search handlers never touch the `users` collection (under every outcome
of their external calls). -/
theorem users_unique_invariant :
    (chatIds emptyStore.users).Nodup
    ∧ (∀ st user, (chatIds st.users).Nodup →
        (chatIds (start st user).1.users).Nodup)
    ∧ (∀ st ev, (chatIds st.users).Nodup →
        (chatIds (contact_handler st ev).1.users).Nodup)
    ∧ (∀ st cid text env, (chatIds st.users).Nodup →
        (chatIds (chat_handler st cid text env).store.users).Nodup)
    ∧ (∀ st cid att env, (chatIds st.users).Nodup →
        (chatIds (file_handler st cid att env).store.users).Nodup)
    ∧ (∀ st cid args env, (chatIds st.users).Nodup →
        (chatIds (web_search st cid args env).store.users).Nodup) := by
  refine ⟨List.nodup_nil, ?_, ?_, ?_, ?_, ?_⟩
  · intro st user h
    cases hf : st.users.find? (fun u => u.chat_id == user.id) with
    | some u =>
      rw [start_eq_of_found st user (by simp [hf])]
      exact h
    | none =>
      rw [start_eq_of_new st user hf]
      have hnotin : user.id ∉ chatIds st.users := by
        intro hmem
        rw [List.find?_eq_none] at hf
        rcases List.mem_map.mp (by simpa [chatIds] using hmem) with ⟨u, hu, he⟩
        exact hf u hu (by simp [he])
      simp only [chatIds, List.map_append, List.map_cons, List.map_nil]
      rw [List.nodup_append]
      exact ⟨h, List.nodup_singleton _, by
        simpa [List.disjoint_singleton, chatIds] using hnotin⟩
  · intro st ev h
    simpa [contact_handler, updateOne_chatIds] using h
  · intro st cid text env h
    rwa [chat_handler_users_eq]
  · intro st cid att env h
    rwa [file_handler_users_eq]
  · intro st cid args env h
    rwa [web_search_users_eq]

/-- Witness for C3: the invariant holds after a concrete `start` and after a
subsequent contact share. -/
theorem users_unique_invariant_witness :
    (chatIds (start emptyStore ⟨5, "B", none⟩).1.users).Nodup
    ∧ (chatIds (contact_handler (start emptyStore ⟨5, "B", none⟩).1
        ⟨5, 5, "+1"⟩).1.users).Nodup := by
  have h := users_unique_invariant
  have h1 := h.2.1 emptyStore ⟨5, "B", none⟩ h.1
  exact ⟨h1, h.2.2.1 (start emptyStore ⟨5, "B", none⟩).1 ⟨5, 5, "+1"⟩ h1⟩

/-- C4.  For every contact-share event against a store whose rows have
pairwise distinct chat ids: the thank-you reply is always sent; a `users` row
matching the contact's `user_id` has its `phone_number` set to the shared
number; and when no row matches, the whole store is unchanged (and the
handler, being total, raises nothing). -/
theorem contact_updates_matching_row (st : Store) (ev : ContactEvent)
    (hnd : (chatIds st.users).Nodup) :
    (contact_handler st ev).2 = [thankYouText]
    ∧ (∀ (i : Nat) (u : UserRow), st.users[i]? = some u →
        u.chat_id = ev.user_id →
        (contact_handler st ev).1.users[i]?
          = some { u with phone_number := some ev.phone_number })
    ∧ ((∀ u ∈ st.users, u.chat_id ≠ ev.user_id) →
        (contact_handler st ev).1 = st) := by
  refine ⟨rfl, ?_, ?_⟩
  · intro i u hu hk
    show (updateOne st.users ev.user_id ev.phone_number)[i]? = _
    exact updateOne_getElem_match st.users ev.user_id ev.phone_number hnd i u hu hk
  · intro hnone
    show ({ st with users := updateOne st.users ev.user_id ev.phone_number } : Store) = st
    rw [updateOne_eq_of_no_match st.users ev.user_id ev.phone_number hnone]

/-- Witness for C4: the spec's scenario — `start` for chat id 1, then a
contact share with `user_id` 1 and number `"+1555"` — updates the row, and a
share with an unknown `user_id` leaves the store unchanged. -/
theorem contact_updates_matching_row_witness :
    (contact_handler (start emptyStore ⟨1, "A", none⟩).1 ⟨1, 1, "+1555"⟩).1.users[0]?
      = some { first_name := "A", username := none, chat_id := 1,
               phone_number := some "+1555" }
    ∧ (contact_handler (start emptyStore ⟨1, "A", none⟩).1 ⟨1, 1, "+1555"⟩).2
      = [thankYouText]
    ∧ (contact_handler (start emptyStore ⟨1, "A", none⟩).1 ⟨7, 9, "+2"⟩).1
      = (start emptyStore ⟨1, "A", none⟩).1 := by
  have h1 := contact_updates_matching_row (start emptyStore ⟨1, "A", none⟩).1
    ⟨1, 1, "+1555"⟩ (by decide)
  have h2 := contact_updates_matching_row (start emptyStore ⟨1, "A", none⟩).1
    ⟨7, 9, "+2"⟩ (by decide)
  refine ⟨?_, h1.1, h2.2.2 (by decide)⟩
  exact h1.2.1 0 (⟨"A", none, 1, none⟩ : UserRow) (by decide) rfl

/-- C9.  `contact_handler` keys its update on the shared contact's `user_id`,
not on the sender's chat id: the row count is preserved, every row whose
`chat_id` differs from the contact's `user_id` is unchanged at its position —
in particular the sender's own row when they share a third party's contact —
the handler's output does not depend on the sender at all, and the other
three collections are untouched. -/
theorem contact_frames_other_rows (st : Store) (ev : ContactEvent) :
    (contact_handler st ev).1.users.length = st.users.length
    ∧ (∀ (i : Nat) (u : UserRow), st.users[i]? = some u →
        u.chat_id ≠ ev.user_id → (contact_handler st ev).1.users[i]? = some u)
    ∧ (∀ s, contact_handler st { ev with sender_chat_id := s }
        = contact_handler st ev)
    ∧ (contact_handler st ev).1.chat_history = st.chat_history
    ∧ (contact_handler st ev).1.files = st.files
    ∧ (contact_handler st ev).1.web_search = st.web_search := by
  refine ⟨?_, ?_, ?_, rfl, rfl, rfl⟩
  · exact updateOne_length st.users ev.user_id ev.phone_number
  · intro i u hu hne
    exact updateOne_getElem_ne st.users ev.user_id ev.phone_number i u hu hne
  · intro s
    rfl

/-- Witness for C9: a sender with chat id 2 shares a third party's contact
(`user_id` 1); the sender's own row at index 1 is unchanged. -/
theorem contact_frames_other_rows_witness :
    (contact_handler
        (start (start emptyStore ⟨1, "A", none⟩).1 ⟨2, "B", none⟩).1
        ⟨2, 1, "+1555"⟩).1.users[1]?
      = some { first_name := "B", username := none, chat_id := 2,
               phone_number := none }
    ∧ (contact_handler
        (start (start emptyStore ⟨1, "A", none⟩).1 ⟨2, "B", none⟩).1
        ⟨2, 1, "+1555"⟩).1.users.length = 2 := by
  have h := contact_frames_other_rows
    (start (start emptyStore ⟨1, "A", none⟩).1 ⟨2, "B", none⟩).1 ⟨2, 1, "+1555"⟩
  refine ⟨h.2.1 1 (⟨"B", none, 2, none⟩ : UserRow) (by decide) (by decide), ?_⟩
  rw [h.1]
  decide

/-- C1 is refuted by a run in which the Gemini call succeeds but delivering
the generated reply fails: the handler persists the record yet replies with
the fixed apology, so branch (a) of the claim — "on success of the
generative call the generated response is sent" — does not hold of this run,
and the run is outside branch (b) since the generative call did not fail. -/
theorem chat_claim_counterexample :
    (chat_handler emptyStore 1 "hello"
        ⟨some "hi there", true, false, 0⟩).store.chat_history
      = [⟨1, "hello", "hi there", 0⟩]
    ∧ (chat_handler emptyStore 1 "hello"
        ⟨some "hi there", true, false, 0⟩).sent = [chatApology]
    ∧ chatApology ≠ "hi there" := by
  exact ⟨rfl, rfl, by decide⟩

/-- C1 as amended.  For every text message: on failure of the generative
call, zero records are persisted and the fixed apology is sent; on success of
the generative call, if the insert succeeds, exactly one whole
`ChatHistoryRecord` — with `input_text` equal to the input and
`response_text` equal to the generated response — is persisted, and the reply
sent is the generated response when the send succeeds and the fixed apology
when it fails; if the insert fails, zero records are persisted and the
apology is sent.  In no run is a partial record written: every persisted
record carries all four fields. -/
theorem chat_handler_amended (st : Store) (cid : Nat) (text : String)
    (env : ChatEnv) :
    (env.gemini = none →
        (chat_handler st cid text env).store = st
        ∧ (chat_handler st cid text env).sent = [chatApology]
        ∧ (chat_handler st cid text env).logged = true)
    ∧ (∀ resp, env.gemini = some resp → env.insertOk = true →
        (chat_handler st cid text env).store
          = { st with chat_history := st.chat_history ++ [⟨cid, text, resp, env.now⟩] }
        ∧ (chat_handler st cid text env).sent
          = [if env.sendOk then resp else chatApology])
    ∧ (∀ resp, env.gemini = some resp → env.insertOk = false →
        (chat_handler st cid text env).store = st
        ∧ (chat_handler st cid text env).sent = [chatApology]) := by
  rcases env with ⟨g, i, s, n⟩
  refine ⟨?_, ?_, ?_⟩
  · intro hg
    cases hg
    exact ⟨rfl, rfl, rfl⟩
  · intro resp hg hi
    cases hg
    cases hi
    cases s
    · exact ⟨rfl, rfl⟩
    · exact ⟨rfl, rfl⟩
  · intro resp hg hi
    cases hg
    cases hi
    exact ⟨rfl, rfl⟩

/-- Witness for the amended C1, covering a failing call, a fully successful
run, and a run whose send fails. -/
theorem chat_handler_amended_witness :
    (chat_handler emptyStore 1 "hello" ⟨none, true, true, 3⟩).store = emptyStore
    ∧ (chat_handler emptyStore 1 "hello" ⟨none, true, true, 3⟩).sent = [chatApology]
    ∧ (chat_handler emptyStore 1 "hello"
        ⟨some "hi there", true, true, 3⟩).store.chat_history
      = [⟨1, "hello", "hi there", 3⟩]
    ∧ (chat_handler emptyStore 1 "hello" ⟨some "hi there", true, true, 3⟩).sent
      = ["hi there"]
    ∧ (chat_handler emptyStore 1 "hello" ⟨some "hi there", true, false, 3⟩).sent
      = [chatApology] := by
  have h1 := chat_handler_amended emptyStore 1 "hello" ⟨none, true, true, 3⟩
  have h2 := chat_handler_amended emptyStore 1 "hello" ⟨some "hi there", true, true, 3⟩
  have h3 := chat_handler_amended emptyStore 1 "hello" ⟨some "hi there", true, false, 3⟩
  have e1 := h1.1 rfl
  have e2 := h2.2.1 "hi there" rfl rfl
  have e3 := h3.2.1 "hi there" rfl rfl
  refine ⟨e1.1, e1.2.1, ?_, ?_, ?_⟩
  · rw [e2.1]
    rfl
  · rw [e2.2]
    rfl
  · rw [e3.2]
    rfl

/-- C8.  When the Gemini call and the insert succeed but sending the
generated reply fails, the record — whose `response_text` was never
delivered — stays persisted and the fixed apology is sent instead. -/
theorem chat_record_without_delivery (st : Store) (cid : Nat)
    (text resp : String) (env : ChatEnv) (hg : env.gemini = some resp)
    (hi : env.insertOk = true) (hs : env.sendOk = false) :
    (chat_handler st cid text env).store.chat_history
      = st.chat_history ++ [⟨cid, text, resp, env.now⟩]
    ∧ (chat_handler st cid text env).sent = [chatApology]
    ∧ (chat_handler st cid text env).logged = true := by
  rcases env with ⟨g, i, s, n⟩
  cases hg
  cases hi
  cases hs
  exact ⟨rfl, rfl, rfl⟩

/-- Witness for C8 at a concrete failed delivery. -/
theorem chat_record_without_delivery_witness :
    (chat_handler emptyStore 9 "hello" ⟨some "hi", true, false, 5⟩).store.chat_history
      = [⟨9, "hello", "hi", 5⟩]
    ∧ (chat_handler emptyStore 9 "hello" ⟨some "hi", true, false, 5⟩).sent
      = [chatApology] := by
  have h := chat_record_without_delivery emptyStore 9 "hello" "hi"
    ⟨some "hi", true, false, 5⟩ rfl rfl rfl
  exact ⟨by rw [h.1]; rfl, h.2.1⟩

/-- C6 is refuted by a run whose download (step 2) fails: the code performs
`file.get_file().download()` before its try block, so the exception is not
caught, nothing is logged, and no apology is sent — the failure propagates
out of the handler. -/
theorem file_claim_counterexample :
    (file_handler emptyStore 1 (.document (some "report.pdf"))
        ⟨false, true, true, 0⟩).raised = true
    ∧ (file_handler emptyStore 1 (.document (some "report.pdf"))
        ⟨false, true, true, 0⟩).sent = []
    ∧ (file_handler emptyStore 1 (.document (some "report.pdf"))
        ⟨false, true, true, 0⟩).logged = false
    ∧ (file_handler emptyStore 1 (.document (some "report.pdf"))
        ⟨false, true, true, 0⟩).store = emptyStore := by
  exact ⟨rfl, rfl, rfl, rfl⟩

/-- C6 as amended.  A failure while downloading the file content (step 2) is
NOT caught: it propagates out of the handler, with no log, no apology and no
record.  A failure in the guarded block — persisting the `FileRecord` or
sending the reply (the description of step 3 is a pure string template and
cannot fail) — is caught and logged, and the user receives the fixed apology
instead of the failure propagating. -/
theorem file_handler_amended (st : Store) (cid : Nat) (att : Attachment)
    (env : FileEnv) :
    (env.downloadOk = false →
        (file_handler st cid att env).raised = true
        ∧ (file_handler st cid att env).store = st
        ∧ (file_handler st cid att env).sent = []
        ∧ (file_handler st cid att env).logged = false)
    ∧ (env.downloadOk = true → env.insertOk = false →
        (file_handler st cid att env).raised = false
        ∧ (file_handler st cid att env).store = st
        ∧ (file_handler st cid att env).sent = [fileApology]
        ∧ (file_handler st cid att env).logged = true)
    ∧ (env.downloadOk = true → env.insertOk = true → env.sendOk = false →
        (file_handler st cid att env).raised = false
        ∧ (file_handler st cid att env).store.files
          = st.files ++ [⟨displayFileName att, cid,
              "Analysis of " ++ pyStr (displayFileName att)
                ++ " completed by Gemini AI.", env.now⟩]
        ∧ (file_handler st cid att env).sent = [fileApology]
        ∧ (file_handler st cid att env).logged = true)
    ∧ (env.downloadOk = true → env.insertOk = true → env.sendOk = true →
        (file_handler st cid att env).raised = false
        ∧ (file_handler st cid att env).logged = false
        ∧ (file_handler st cid att env).sent
          = ["File analyzed: " ++ ("Analysis of "
              ++ pyStr (displayFileName att) ++ " completed by Gemini AI.")]) := by
  rcases env with ⟨d, i, s, n⟩
  refine ⟨?_, ?_, ?_, ?_⟩
  · intro hd
    cases hd
    exact ⟨rfl, rfl, rfl, rfl⟩
  · intro hd hi
    cases hd
    cases hi
    exact ⟨rfl, rfl, rfl, rfl⟩
  · intro hd hi hs
    cases hd
    cases hi
    cases hs
    exact ⟨rfl, rfl, rfl, rfl⟩
  · intro hd hi hs
    cases hd
    cases hi
    cases hs
    exact ⟨rfl, rfl, rfl⟩

/-- Witness for the amended C6: an uncaught download failure and a caught
insert failure, at concrete inputs. -/
theorem file_handler_amended_witness :
    (file_handler emptyStore 2 .photo ⟨false, true, true, 1⟩).raised = true
    ∧ (file_handler emptyStore 2 .photo ⟨false, true, true, 1⟩).sent = []
    ∧ (file_handler emptyStore 2 .photo ⟨true, false, true, 1⟩).raised = false
    ∧ (file_handler emptyStore 2 .photo ⟨true, false, true, 1⟩).sent = [fileApology]
    ∧ (file_handler emptyStore 2 .photo ⟨true, false, true, 1⟩).logged = true := by
  have h1 := file_handler_amended emptyStore 2 .photo ⟨false, true, true, 1⟩
  have h2 := file_handler_amended emptyStore 2 .photo ⟨true, false, true, 1⟩
  have e1 := h1.1 rfl
  have e2 := h2.2.1 rfl rfl
  exact ⟨e1.1, e1.2.2.1, e2.1, e2.2.2.1, e2.2.2.2⟩

/-- C7 is refuted by a document attachment whose declared `file_name` is
unset: the code tests `hasattr(file, 'file_name')`, which is true of every
document object even when the attribute's value is `None`, so the recorded
display name is the null value — not the default `"photo.jpg"` — and the
reply embeds Python's rendering `"None"`. -/
theorem file_name_claim_counterexample :
    (file_handler emptyStore 1 (.document none) ⟨true, true, true, 0⟩).store.files
      = [⟨none, 1, "Analysis of None completed by Gemini AI.", 0⟩]
    ∧ displayFileName (.document none) ≠ some "photo.jpg"
    ∧ (file_handler emptyStore 1 (.document none) ⟨true, true, true, 0⟩).sent
      = ["File analyzed: Analysis of None completed by Gemini AI."] := by
  exact ⟨rfl, by decide, rfl⟩

/-- C7 as amended.  The display filename recorded in the `FileRecord` is the
declared `file_name` attribute verbatim whenever the attachment kind carries
that attribute (documents) — including when it is unset (null) or empty —
and the fixed default `"photo.jpg"` exactly when the attachment kind lacks
the attribute (photos). -/
theorem file_name_amended (st : Store) (cid : Nat) (env : FileEnv)
    (hd : env.downloadOk = true) (hi : env.insertOk = true) :
    (∀ fn, (file_handler st cid (.document fn) env).store.files
      = st.files ++ [⟨fn, cid,
          "Analysis of " ++ pyStr fn ++ " completed by Gemini AI.", env.now⟩])
    ∧ (file_handler st cid .photo env).store.files
      = st.files ++ [⟨some "photo.jpg", cid,
          "Analysis of photo.jpg completed by Gemini AI.", env.now⟩] := by
  rcases env with ⟨d, i, s, n⟩
  cases hd
  cases hi
  refine ⟨fun fn => ?_, ?_⟩
  · cases s <;> rfl
  · cases s <;> rfl

/-- Witness for the amended C7 at concrete attachments. -/
theorem file_name_amended_witness :
    (file_handler emptyStore 3 (.document (some "a.txt"))
        ⟨true, true, true, 2⟩).store.files
      = [⟨some "a.txt", 3, "Analysis of a.txt completed by Gemini AI.", 2⟩]
    ∧ (file_handler emptyStore 3 .photo ⟨true, true, true, 2⟩).store.files
      = [⟨some "photo.jpg", 3, "Analysis of photo.jpg completed by Gemini AI.", 2⟩] := by
  have h := file_name_amended emptyStore 3 ⟨true, true, true, 2⟩ rfl rfl
  exact ⟨by rw [h.1 (some "a.txt")]; rfl, by rw [h.2]; rfl⟩

/-- C5.  An empty argument list joins to the empty string, so the handler
sends the usage reply, writes no `SearchRecord` and leaves the store
untouched, under every outcome of the external calls; and in a run whose
insert and send return normally, a non-empty joined query yields exactly one
appended `SearchRecord` whose `query` equals the joined query, and the reply
sent is the templated result string, which contains the query between the
fixed prefix `"Results for '"` and suffix `"' retrieved by AI."`. -/
theorem web_search_empty_and_query (st : Store) (cid : Nat)
    (args : List String) (env : SearchEnv)
    (hq : String.intercalate " " args ≠ "") (hi : env.insertOk = true)
    (hs : env.sendOk = true) :
    ((web_search st cid [] env).store = st
      ∧ (web_search st cid [] env).sent = [usageText])
    ∧ (web_search st cid args env).store.web_search
      = st.web_search ++ [⟨cid, String.intercalate " " args,
          "Results for '" ++ String.intercalate " " args
            ++ "' retrieved by AI.", env.now⟩]
    ∧ (web_search st cid args env).sent
      = ["Results for '" ++ String.intercalate " " args
          ++ "' retrieved by AI."] := by
  rcases env with ⟨i, s, n⟩
  cases hi
  cases hs
  refine ⟨⟨rfl, rfl⟩, ?_⟩
  have hr : web_search st cid args ⟨true, true, n⟩
      = ⟨{ st with web_search := st.web_search
            ++ [⟨cid, String.intercalate " " args,
                "Results for '" ++ String.intercalate " " args
                  ++ "' retrieved by AI.", n⟩] },
         ["Results for '" ++ String.intercalate " " args
            ++ "' retrieved by AI."], false⟩ := by
    simp only [web_search]
    rw [if_neg hq]
    rfl
  rw [hr]
  exact ⟨rfl, rfl⟩

/-- Witness for C5 at the spec's query `"weather today"`. -/
theorem web_search_empty_and_query_witness :
    (web_search emptyStore 4 [] ⟨true, true, 7⟩).sent = [usageText]
    ∧ (web_search emptyStore 4 [] ⟨true, true, 7⟩).store = emptyStore
    ∧ (web_search emptyStore 4 ["weather", "today"] ⟨true, true, 7⟩).store.web_search
      = [⟨4, "weather today", "Results for 'weather today' retrieved by AI.", 7⟩]
    ∧ (web_search emptyStore 4 ["weather", "today"] ⟨true, true, 7⟩).sent
      = ["Results for 'weather today' retrieved by AI."] := by
  have h := web_search_empty_and_query emptyStore 4 ["weather", "today"]
    ⟨true, true, 7⟩ (by decide) rfl rfl
  refine ⟨h.1.2, h.1.1, ?_, ?_⟩
  · rw [h.2.1]
    rfl
  · rw [h.2.2]
    rfl

/-- C10.  The handler's query is Python's `" ".join(context.args)`: whenever
it is non-empty, the persisted record's `query` and the reply's embedded
query are exactly the argument tokens separated by single spaces; and a list
of two or more empty-string tokens joins to a non-empty string of spaces, so
it IS recorded (and, when the send returns normally, echoed in the reply)
rather than treated as a missing query. -/
theorem web_search_join_semantics (st : Store) (cid : Nat)
    (args : List String) (env : SearchEnv) (n : Nat)
    (hi : env.insertOk = true) :
    (String.intercalate " " args ≠ "" →
        (web_search st cid args env).store.web_search
          = st.web_search ++ [⟨cid, String.intercalate " " args,
              "Results for '" ++ String.intercalate " " args
                ++ "' retrieved by AI.", env.now⟩])
    ∧ String.intercalate " " (List.replicate (n + 2) "") ≠ ""
    ∧ (web_search st cid (List.replicate (n + 2) "") env).store.web_search
      = st.web_search ++ [⟨cid, String.intercalate " " (List.replicate (n + 2) ""),
          "Results for '" ++ String.intercalate " " (List.replicate (n + 2) "")
            ++ "' retrieved by AI.", env.now⟩] := by
  rcases env with ⟨i, s, now⟩
  cases hi
  have key : ∀ (as : List String), String.intercalate " " as ≠ "" →
      (web_search st cid as ⟨true, s, now⟩).store.web_search
        = st.web_search ++ [⟨cid, String.intercalate " " as,
            "Results for '" ++ String.intercalate " " as
              ++ "' retrieved by AI.", now⟩] := by
    intro as hq
    simp only [web_search]
    rw [if_neg hq]
    cases s <;> rfl
  exact ⟨key args, intercalate_replicate_empty_ne n,
    key (List.replicate (n + 2) "") (intercalate_replicate_empty_ne n)⟩

/-- Witness for C10: the two-empty-token list `["", ""]` joins to a single
space and is recorded. -/
theorem web_search_join_semantics_witness :
    String.intercalate " " ["", ""] ≠ ""
    ∧ (web_search emptyStore 8 ["", ""] ⟨true, true, 11⟩).store.web_search
      = [⟨8, " ", "Results for ' ' retrieved by AI.", 11⟩] := by
  have h := web_search_join_semantics emptyStore 8 ["", ""] ⟨true, true, 11⟩ 0 rfl
  have h0 : List.replicate (0 + 2) "" = ["", ""] := rfl
  rw [h0] at h
  refine ⟨h.2.1, ?_⟩
  rw [h.2.2]
  rfl
